import Mathlib

/-
Verification of the server-side CRUD core of the quick-recipes application.

The embedding follows src/server/controllers/recipeControllers.js and
src/server/routes/routes.js. The Appwrite backend (node-appwrite SDK) is an
external collaborator; its Record Store and File Store behaviour is modelled
from the contracts in the specification (sections 4.1 and 4.2) together with
the argument positions of the SDK (listDocuments takes orderField and
orderType as its fifth and sixth arguments, confirmed against the bundled
appwrite sdk.ts). Backend failure is injected through an explicit
`failWith` field on each adapter state.

JavaScript evaluation quirks of the controller file are modelled explicitly:
* `createRecipe` destructures `req.file` and reads `file.filename` without
  checking for presence, so a request with no uploaded file throws a
  TypeError inside the try block, which the catch turns into HTTP 400;
* `deleteRecipe` names its catch parameter `error` but the catch body reads
  `err.message`; the catch body itself throws a ReferenceError, so on an
  adapter failure no HTTP response is sent at all;
* `updateRecipe` is not async and never awaits `database.updateDocument`:
  the response is always HTTP 201 and its JSON body is the still-pending
  promise, and a rejection of the adapter call is never caught.
-/

namespace QuickRecipes

/-- A file written to local disk by the multer upload middleware
(routes.js): only its generated filename reaches the controller. -/
structure UploadedFile where
  filename : String
deriving DecidableEq

/-- The result of `JSON.parse(details)` in `createRecipe`: an object whose
three expected fields may each be absent (`undefined` after destructuring). -/
structure Details where
  name : Option String
  ingredients : Option String
  recipe : Option String
deriving DecidableEq

/-- A create request as the controller sees it: the optional uploaded file
attached by multer, the parsed `details` field of the multipart body, and
the current clock value used for `Date.now()`. -/
structure CreateRequest where
  file : Option UploadedFile
  details : Details
  now : Nat
deriving DecidableEq

/-- A document persisted in the backend collection: the backend-assigned
`$id` plus the fields the controller stores (`name`, `ingredients`,
`recipe`, `created_date`, `image`). -/
structure StoredRecipe where
  id : String
  name : String
  ingredients : String
  recipe : String
  created_date : Nat
  image : Option String
deriving DecidableEq

/-- The field mapping `createRecipe` builds and passes to
`database.createDocument`; the three text fields come from the parsed
details and may be `undefined`. -/
structure NewRecipeDoc where
  name : Option String
  recipe : Option String
  ingredients : Option String
  created_date : Nat
  image : Option String
deriving DecidableEq

/-- State of the File Store (Appwrite storage): the ids of files stored so
far, a counter for the next generated id, and an injected failure. When
`failWith = some m`, every call rejects with message `m`
(BackendUnavailable in the contract of section 4.2). -/
structure FileStore where
  files : List String
  nextFileId : Nat
  failWith : Option String
deriving DecidableEq

/-- The id the File Store will assign to the next stored file. -/
def FileStore.fileIdFor (fs : FileStore) : String :=
  "file" ++ toString fs.nextFileId

/-- Model of `storage.createFile(stream, read, write)`: stores the byte
stream (identified here by the path it was opened from) under a fresh id
and returns that id; permissions are opaque passthrough values. -/
def FileStore.createFile (fs : FileStore) (path : String)
    (readPerms writePerms : List String) : Except String (FileStore × String) :=
  match fs.failWith with
  | some m => .error m
  | none =>
      .ok ({ fs with
              files := fs.files ++ [fs.fileIdFor],
              nextFileId := fs.nextFileId + 1 },
           fs.fileIdFor)

/-- State of the Record Store collection `61319d3498a39`: the persisted
documents, a counter for backend id assignment, and an injected failure.
When `failWith = some m`, every call rejects with message `m`. -/
structure RecordStore where
  docs : List StoredRecipe
  nextId : Nat
  failWith : Option String
deriving DecidableEq

/-- The id the Record Store will assign to the next created document. -/
def RecordStore.newDocId (rs : RecordStore) : String :=
  "doc" ++ toString rs.nextId

/-- Collection-rule validation performed by the backend on create: every
persisted recipe has non-empty `name`, `ingredients`, `recipe` (the
invariant of section 3); returns the three validated fields or nothing. -/
def requiredFields (doc : NewRecipeDoc) : Option (String × String × String) :=
  match doc.name, doc.ingredients, doc.recipe with
  | some n, some i, some r =>
      if n = "" ∨ i = "" ∨ r = "" then none else some (n, i, r)
  | _, _, _ => none

/-- Model of `database.createDocument(collectionId, data)`: the backend
validates the collection rules (error InvalidFields of section 4.1),
assigns an id and echoes the fields back. -/
def RecordStore.createDocument (rs : RecordStore) (collectionId : String)
    (doc : NewRecipeDoc) : Except String (RecordStore × StoredRecipe) :=
  match rs.failWith with
  | some m => .error m
  | none =>
      match requiredFields doc with
      | none => .error "Invalid document structure: missing required attribute"
      | some (n, i, r) =>
          let created : StoredRecipe :=
            ⟨rs.newDocId, n, i, r, doc.created_date, doc.image⟩
          .ok ({ rs with docs := rs.docs ++ [created], nextId := rs.nextId + 1 },
               created)

/-- Insert a record into a list already sorted by `created_date`
descending, keeping it sorted. -/
def insertDesc (r : StoredRecipe) : List StoredRecipe → List StoredRecipe
  | [] => [r]
  | x :: xs =>
      if x.created_date ≤ r.created_date then r :: x :: xs
      else x :: insertDesc r xs

/-- Sort records by `created_date` descending (newest first); the backend
performs this sorting, not the controller. -/
def sortByCreatedDesc : List StoredRecipe → List StoredRecipe
  | [] => []
  | x :: xs => insertDesc x (sortByCreatedDesc xs)

/-- Model of `database.listDocuments(collectionId, filters, limit, offset,
orderField, orderType)`: returns all documents of the collection, sorted by
the backend according to the order arguments. The controller only ever
passes orderField `created_date` with orderType `DESC`. -/
def RecordStore.listDocuments (rs : RecordStore) (collectionId : String)
    (orderField orderType : String) : Except String (List StoredRecipe) :=
  match rs.failWith with
  | some m => .error m
  | none =>
      if orderField = "created_date" ∧ orderType = "DESC" then
        .ok (sortByCreatedDesc rs.docs)
      else
        .ok rs.docs

/-- The field mapping sent as the PATCH body (`req.body`): any subset of
the three text fields may be present. -/
structure UpdateFields where
  name : Option String
  ingredients : Option String
  recipe : Option String
deriving DecidableEq

/-- Replace the named fields on an existing document; fields omitted from
the input are left unchanged (section 4.1, update contract). -/
def mergeFields (r : StoredRecipe) (u : UpdateFields) : StoredRecipe :=
  { r with
      name := u.name.getD r.name,
      ingredients := u.ingredients.getD r.ingredients,
      recipe := u.recipe.getD r.recipe }

/-- Model of `database.updateDocument(collectionId, documentId, data)`:
replaces the named fields on the existing document and returns the updated
document; NotFound when no document has the requested id. -/
def RecordStore.updateDocument (rs : RecordStore) (collectionId : String)
    (id : String) (u : UpdateFields) : Except String (RecordStore × StoredRecipe) :=
  match rs.failWith with
  | some m => .error m
  | none =>
      match rs.docs.find? (fun d => d.id == id) with
      | none => .error "Document with the requested ID could not be found"
      | some r =>
          .ok ({ rs with
                  docs := rs.docs.map (fun d => if d.id == id then mergeFields d u else d) },
               mergeFields r u)

/-- Model of `database.deleteDocument(collectionId, documentId)`: removes
the document with the requested id; NotFound when absent. -/
def RecordStore.deleteDocument (rs : RecordStore) (collectionId : String)
    (id : String) : Except String (RecordStore × Unit) :=
  match rs.failWith with
  | some m => .error m
  | none =>
      match rs.docs.find? (fun d => d.id == id) with
      | none => .error "Document with the requested ID could not be found"
      | some _ =>
          .ok ({ rs with docs := rs.docs.filter (fun d => d.id != id) }, ())

/-- The whole backend state visible to one request: the File Store and the
Record Store. -/
structure SystemState where
  fileStore : FileStore
  recordStore : RecordStore
deriving DecidableEq

/-- One adapter invocation, recorded in order of invocation. The File
Store delete operation exists in the backend (section 4.2 notes it) but is
never invoked by this system. -/
inductive AdapterCall where
  | fileStoreCreate (path : String)
  | fileStoreDelete (fileId : String)
  | recordCreate
  | recordList (orderField orderType : String)
  | recordUpdate (id : String)
  | recordDelete (id : String)
deriving DecidableEq

/-- The JSON body of an HTTP response sent by a controller. -/
inductive Body where
  | createPayload (createdData : StoredRecipe) (createdImage : String)
  | docList (documents : List StoredRecipe)
  | record (r : StoredRecipe)
  | errorMsg (msg : String)
  | funcRef (handlerName : String)
  | pendingPromise
deriving DecidableEq

/-- An HTTP response: status code and JSON body. -/
structure Response where
  status : Nat
  body : Body
deriving DecidableEq

/-- The observable outcome of running one controller handler: the HTTP
response if one was sent (`none` when the handler crashed before
responding), the backend state afterwards, the adapter calls made in
order, and any JavaScript error that escaped uncaught. -/
structure HandlerResult where
  response : Option Response
  finalState : SystemState
  calls : List AdapterCall
  uncaught : Option String
deriving DecidableEq

/-- The collection id hard-coded in recipeControllers.js. -/
def COLLECTION_ID : String := "61319d3498a39"

/-- The directory multer writes uploads to and the controller reads the
stream from (routes.js / recipeControllers.js). -/
def uploadsDir : String := "./public/uploads/images/"

/-- The TypeError raised when `createRecipe` reads `file.filename` on a
request that carried no uploaded file. -/
def typeErrorNoFile : String :=
  "TypeError: cannot read filename of undefined"

/-- The ReferenceError raised inside the catch block of `deleteRecipe`,
whose body reads the undefined name `err`. -/
def referenceErrorErr : String :=
  "ReferenceError: err is not defined"

/-- Shallow embedding of `createRecipe`. Faithful control flow: the
handler unconditionally reads `file.filename` (TypeError when no file was
uploaded, caught by the catch block), then awaits
`storage.createFile(stream, wildcard, wildcard)`, then awaits
`database.createDocument` with the built field mapping (the `image` field
is the id the File Store returned), replying 201 with
`createdData, createdImage` on success; every caught error becomes
HTTP 400 with the raw message. -/
def createRecipe (req : CreateRequest) (st : SystemState) : HandlerResult :=
  match req.file with
  | none =>
      { response := some { status := 400, body := .errorMsg typeErrorNoFile },
        finalState := st,
        calls := [],
        uncaught := none }
  | some f =>
      let path := uploadsDir ++ f.filename
      match st.fileStore.createFile path ["*"] ["*"] with
      | .error m =>
          { response := some { status := 400, body := .errorMsg m },
            finalState := st,
            calls := [.fileStoreCreate path],
            uncaught := none }
      | .ok (fs2, createdImageId) =>
          let newRecipe : NewRecipeDoc :=
            { name := req.details.name,
              recipe := req.details.recipe,
              ingredients := req.details.ingredients,
              created_date := req.now,
              image := some createdImageId }
          match st.recordStore.createDocument COLLECTION_ID newRecipe with
          | .error m =>
              { response := some { status := 400, body := .errorMsg m },
                finalState := { st with fileStore := fs2 },
                calls := [.fileStoreCreate path, .recordCreate],
                uncaught := none }
          | .ok (rs2, createdData) =>
              { response := some { status := 201,
                                   body := .createPayload createdData createdImageId },
                finalState := { fileStore := fs2, recordStore := rs2 },
                calls := [.fileStoreCreate path, .recordCreate],
                uncaught := none }

/-- Shallow embedding of `showRecipes`: awaits
`database.listDocuments(COLLECTION_ID, undefined, undefined, undefined,
"created_date", "DESC")` and replies 200 with the returned sequence, or
400 with the error message. -/
def showRecipes (st : SystemState) : HandlerResult :=
  match st.recordStore.listDocuments COLLECTION_ID "created_date" "DESC" with
  | .ok data =>
      { response := some { status := 200, body := .docList data },
        finalState := st,
        calls := [.recordList "created_date" "DESC"],
        uncaught := none }
  | .error m =>
      { response := some { status := 400, body := .errorMsg m },
        finalState := st,
        calls := [.recordList "created_date" "DESC"],
        uncaught := none }

/-- Shallow embedding of `deleteRecipe`: awaits
`database.deleteDocument(COLLECTION_ID, id)`; on success replies 200 with
the handler function reference itself (the source serialises the function
`deleteRecipe`, not the stored result `deltetedRecipe`); on failure the
catch block reads `err.message` although the catch parameter is named
`error`, so the catch itself raises a ReferenceError and no response is
sent. -/
def deleteRecipe (id : String) (st : SystemState) : HandlerResult :=
  match st.recordStore.deleteDocument COLLECTION_ID id with
  | .ok (rs2, _confirmation) =>
      { response := some { status := 200, body := .funcRef "deleteRecipe" },
        finalState := { st with recordStore := rs2 },
        calls := [.recordDelete id],
        uncaught := none }
  | .error _m =>
      { response := none,
        finalState := st,
        calls := [.recordDelete id],
        uncaught := some referenceErrorErr }

/-- Shallow embedding of `updateRecipe`: starts
`database.updateDocument(COLLECTION_ID, id, req.body)` without awaiting it
and immediately replies 201 with the pending promise as the JSON body; the
backend call still settles (updating the store on success), but a
rejection is never caught by the try block, so no 400 is possible on this
path. -/
def updateRecipe (id : String) (body : UpdateFields) (st : SystemState) :
    HandlerResult :=
  let attempt := st.recordStore.updateDocument COLLECTION_ID id body
  { response := some { status := 201, body := .pendingPromise },
    finalState :=
      match attempt with
      | .ok (rs2, _) => { st with recordStore := rs2 }
      | .error _ => st,
    calls := [.recordUpdate id],
    uncaught :=
      match attempt with
      | .ok _ => none
      | .error m => some ("UnhandledPromiseRejection: " ++ m) }

/-- The Soup details used throughout section 8 of the specification. -/
def soupDetails : Details :=
  { name := some "Soup", ingredients := some "Water,Salt", recipe := some "Boil" }

/-- A fresh, healthy backend: both stores empty, no injected failure. -/
def emptyState : SystemState :=
  { fileStore := { files := [], nextFileId := 0, failWith := none },
    recordStore := { docs := [], nextId := 0, failWith := none } }

/-- A healthy backend holding exactly one recipe document `doc0`. -/
def oneRecState : SystemState :=
  { fileStore := { files := [], nextFileId := 0, failWith := none },
    recordStore := { docs := [⟨"doc0", "Soup", "Water,Salt", "Boil", 5, none⟩],
                     nextId := 1, failWith := none } }

/-- A backend whose Record Store rejects every call (BackendUnavailable). -/
def backendDownState : SystemState :=
  { fileStore := { files := [], nextFileId := 0, failWith := none },
    recordStore := { docs := [], nextId := 0, failWith := some "Backend unavailable" } }

/-- A backend whose File Store rejects every call (BackendUnavailable). -/
def fileDownState : SystemState :=
  { fileStore := { files := [], nextFileId := 0, failWith := some "Storage unavailable" },
    recordStore := { docs := [], nextId := 0, failWith := none } }

/-- Recipe created first (oldest, `created_date = 1`). -/
def recA : StoredRecipe := ⟨"doc0", "Alpha", "a", "x", 1, none⟩

/-- Recipe created second (`created_date = 2`). -/
def recB : StoredRecipe := ⟨"doc1", "Beta", "b", "y", 2, none⟩

/-- Recipe created last (newest, `created_date = 3`). -/
def recC : StoredRecipe := ⟨"doc2", "Gamma", "c", "z", 3, none⟩

/-- A healthy backend holding the three recipes in creation order. -/
def threeRecState : SystemState :=
  { fileStore := { files := [], nextFileId := 0, failWith := none },
    recordStore := { docs := [recA, recB, recC], nextId := 3, failWith := none } }

/-- Recognises a File Store delete call in an adapter trace. -/
def isFileStoreDelete : AdapterCall → Bool
  | .fileStoreDelete _ => true
  | _ => false

/-- Merging preserves the document id. -/
theorem mergeFields_id (d : StoredRecipe) (u : UpdateFields) :
    (mergeFields d u).id = d.id := rfl

/-- Merging a mapping that carries only `name` changes only `name`. -/
theorem mergeFields_only_name (d : StoredRecipe) (n : String) :
    mergeFields d ⟨some n, none, none⟩ = { d with name := n } := rfl

/-- A successful `createFile` returns the next generated file id and
appends exactly that id to the stored files. -/
theorem createFile_ok (fs : FileStore) (p : String) (rp wp : List String)
    (fs2 : FileStore) (fid : String)
    (h : fs.createFile p rp wp = .ok (fs2, fid)) :
    fid = fs.fileIdFor ∧ fs2.files = fs.files ++ [fs.fileIdFor] := by
  unfold FileStore.createFile at h
  split at h
  · exact Except.noConfusion h
  · injection h with h1
    injection h1 with h2 h3
    subst h2
    subst h3
    exact ⟨rfl, rfl⟩

/-- A successfully created document carries exactly the `image` value of
the field mapping that was sent. -/
theorem createDocument_ok_image (rs : RecordStore) (c : String)
    (doc : NewRecipeDoc) (rs2 : RecordStore) (rec : StoredRecipe)
    (h : rs.createDocument c doc = .ok (rs2, rec)) : rec.image = doc.image := by
  unfold RecordStore.createDocument at h
  split at h
  · exact Except.noConfusion h
  · split at h
    · exact Except.noConfusion h
    · injection h with h1
      injection h1 with h2 h3
      subst h3
      rfl

/-- Validation rejects a field mapping whose `name` is absent. -/
theorem requiredFields_none_of_noName (doc : NewRecipeDoc)
    (h : doc.name = none) : requiredFields doc = none := by
  unfold requiredFields
  rw [h]

/-- Creating a document whose field mapping lacks `name` always fails. -/
theorem createDocument_noName (rs : RecordStore) (c : String)
    (doc : NewRecipeDoc) (h : doc.name = none) :
    ∃ m, rs.createDocument c doc = .error m := by
  unfold RecordStore.createDocument
  rcases hw : rs.failWith with _ | m
  · rw [requiredFields_none_of_noName doc h]
    exact ⟨_, rfl⟩
  · exact ⟨m, rfl⟩

/-- Updating inside a mapped list: if a record with the sought id is
found, the same search on the field-merged list finds its merged form. -/
theorem find?_map_update (l : List StoredRecipe) (id : String)
    (u : UpdateFields) (r : StoredRecipe)
    (h : l.find? (fun d => d.id == id) = some r) :
    (l.map (fun d => if d.id == id then mergeFields d u else d)).find?
      (fun d => d.id == id) = some (mergeFields r u) := by
  induction l with
  | nil => simp at h
  | cons x xs ih =>
      by_cases hx : x.id = id
      · have hr : x = r := by
          have hfx : (x :: xs).find? (fun d => d.id == id) = some x :=
            List.find?_cons_of_pos _ (by simp [hx])
          rw [hfx] at h
          injection h
        subst hr
        simp only [List.map_cons]
        rw [if_pos (by simp [hx])]
        exact List.find?_cons_of_pos _ (by simp [mergeFields_id, hx])
      · have h2 : xs.find? (fun d => d.id == id) = some r := by
          rwa [List.find?_cons_of_neg _ (by simp [hx])] at h
        simp only [List.map_cons]
        rw [if_neg (by simp [hx])]
        rw [List.find?_cons_of_neg _ (by simp [hx])]
        exact ih h2

/-- C1 counterexample: posting valid Soup details with no image does not
yield HTTP 201 — the handler answers HTTP 400 with the TypeError message
raised by reading `file.filename` on an absent upload, and nothing is
persisted. -/
theorem noImage_create_cex :
    (createRecipe ⟨none, soupDetails, 5⟩ emptyState).response
      = some ⟨400, .errorMsg typeErrorNoFile⟩ ∧
    (createRecipe ⟨none, soupDetails, 5⟩ emptyState).response.map Response.status
      ≠ some 201 ∧
    (createRecipe ⟨none, soupDetails, 5⟩ emptyState).finalState = emptyState :=
  ⟨rfl, by decide, rfl⟩

/-- C1 (amended): for every create request with no uploaded image —
whatever the details — the service responds HTTP 400 with the TypeError
message, invokes neither adapter, and leaves the backend unchanged; in
particular no record is created and the File Store is never called. -/
theorem noImage_create_responds_400 (req : CreateRequest) (st : SystemState)
    (h : req.file = none) :
    (createRecipe req st).response = some ⟨400, .errorMsg typeErrorNoFile⟩ ∧
    (createRecipe req st).calls = [] ∧
    (createRecipe req st).finalState = st := by
  simp [createRecipe, h]

/-- C1 witness: the amended statement evaluated on the concrete Soup
request with no image against the fresh backend. -/
theorem noImage_create_responds_400_witness :
    (createRecipe ⟨none, soupDetails, 7⟩ emptyState).response
      = some ⟨400, .errorMsg typeErrorNoFile⟩ ∧
    (createRecipe ⟨none, soupDetails, 7⟩ emptyState).calls = [] ∧
    (createRecipe ⟨none, soupDetails, 7⟩ emptyState).finalState = emptyState :=
  noImage_create_responds_400 ⟨none, soupDetails, 7⟩ emptyState rfl

/-- C2: with the Record Store down, a delete request produces no HTTP
response at all (the catch block reads the undefined name `err` and itself
raises a ReferenceError), and an update request still answers HTTP 201
(the adapter call is never awaited, so its rejection is never caught) —
so adapter failures on these two operations do escape without an
HTTP 400, contradicting the claimed propagation policy. -/
theorem adapterFailure_escapes_delete_update :
    (deleteRecipe "a1" backendDownState).response = none ∧
    (deleteRecipe "a1" backendDownState).uncaught = some referenceErrorErr ∧
    (updateRecipe "a1" ⟨some "X", none, none⟩ backendDownState).response
      = some ⟨201, .pendingPromise⟩ ∧
    (updateRecipe "a1" ⟨some "X", none, none⟩ backendDownState).uncaught
      = some "UnhandledPromiseRejection: Backend unavailable" :=
  ⟨rfl, rfl, rfl, rfl⟩

/-- C3: for every create request carrying an uploaded file that ends in an
HTTP 201, the adapter trace is exactly the File Store `createFile`
followed by the Record Store `createDocument` (store completes before the
record create is invoked), the returned `createdImage` id is precisely the
FileId the File Store assigned, the created record's `image` field equals
that id, and the file is present in the File Store afterwards. -/
theorem create_with_image_stores_then_links (req : CreateRequest)
    (st : SystemState) (f : UploadedFile) (hf : req.file = some f)
    (h201 : (createRecipe req st).response.map Response.status = some 201) :
    (createRecipe req st).calls
      = [.fileStoreCreate (uploadsDir ++ f.filename), .recordCreate] ∧
    ∃ rec, (createRecipe req st).response
        = some ⟨201, .createPayload rec st.fileStore.fileIdFor⟩ ∧
      rec.image = some st.fileStore.fileIdFor ∧
      st.fileStore.fileIdFor ∈ (createRecipe req st).finalState.fileStore.files := by
  rcases hE : st.fileStore.createFile (uploadsDir ++ f.filename) ["*"] ["*"]
    with m | ⟨fs2, img⟩
  · simp [createRecipe, hf, hE] at h201
  · obtain ⟨himg, hfiles⟩ := createFile_ok _ _ _ _ _ _ hE
    rcases hC : st.recordStore.createDocument COLLECTION_ID
        { name := req.details.name, recipe := req.details.recipe,
          ingredients := req.details.ingredients, created_date := req.now,
          image := some img } with m2 | ⟨rs2, rec⟩
    · simp [createRecipe, hf, hE, hC] at h201
    · have hrecimg : rec.image = some img := createDocument_ok_image _ _ _ _ _ hC
      subst himg
      refine ⟨?_, rec, ?_, ?_, ?_⟩ <;>
        simp [createRecipe, hf, hE, hC, hrecimg, hfiles]

/-- C3 witness: the theorem evaluated on a concrete upload against the
fresh backend, where the create succeeds with id `file0`. -/
theorem create_with_image_stores_then_links_witness :
    (createRecipe ⟨some ⟨"a.png"⟩, soupDetails, 5⟩ emptyState).calls
      = [.fileStoreCreate (uploadsDir ++ (⟨"a.png"⟩ : UploadedFile).filename),
         .recordCreate] ∧
    ∃ rec, (createRecipe ⟨some ⟨"a.png"⟩, soupDetails, 5⟩ emptyState).response
        = some ⟨201, .createPayload rec emptyState.fileStore.fileIdFor⟩ ∧
      rec.image = some emptyState.fileStore.fileIdFor ∧
      emptyState.fileStore.fileIdFor
        ∈ (createRecipe ⟨some ⟨"a.png"⟩, soupDetails, 5⟩
            emptyState).finalState.fileStore.files :=
  create_with_image_stores_then_links ⟨some ⟨"a.png"⟩, soupDetails, 5⟩
    emptyState ⟨"a.png"⟩ rfl rfl

/-- C4: when a create request carries an uploaded file but the File Store
rejects the store operation with message `m`, the service responds
HTTP 400 carrying exactly `m`, the Record Store create is never invoked,
and the whole backend state is unchanged. -/
theorem fileStore_failure_aborts_create (req : CreateRequest)
    (st : SystemState) (f : UploadedFile) (m : String)
    (hf : req.file = some f) (hfail : st.fileStore.failWith = some m) :
    (createRecipe req st).response = some ⟨400, .errorMsg m⟩ ∧
    AdapterCall.recordCreate ∉ (createRecipe req st).calls ∧
    (createRecipe req st).finalState = st := by
  have hE : st.fileStore.createFile (uploadsDir ++ f.filename) ["*"] ["*"]
      = .error m := by
    simp [FileStore.createFile, hfail]
  simp [createRecipe, hf, hE]

/-- C4 witness: the theorem evaluated on a concrete upload against a
backend whose File Store is down. -/
theorem fileStore_failure_aborts_create_witness :
    (createRecipe ⟨some ⟨"a.png"⟩, soupDetails, 5⟩ fileDownState).response
      = some ⟨400, .errorMsg "Storage unavailable"⟩ ∧
    AdapterCall.recordCreate
      ∉ (createRecipe ⟨some ⟨"a.png"⟩, soupDetails, 5⟩ fileDownState).calls ∧
    (createRecipe ⟨some ⟨"a.png"⟩, soupDetails, 5⟩ fileDownState).finalState
      = fileDownState :=
  fileStore_failure_aborts_create ⟨some ⟨"a.png"⟩, soupDetails, 5⟩
    fileDownState ⟨"a.png"⟩ "Storage unavailable" rfl rfl

/-- C5: the list handler invokes the Record Store with order field
`created_date` (the creation timestamp) and direction `DESC`, and for any
three records created at times t1 < t2 < t3 it answers HTTP 200 with the
collection ordered newest first, [t3, t2, t1]. -/
theorem list_sorted_created_date_desc (st : SystemState)
    (r1 r2 r3 : StoredRecipe)
    (hdocs : st.recordStore.docs = [r1, r2, r3])
    (hok : st.recordStore.failWith = none)
    (h12 : r1.created_date < r2.created_date)
    (h23 : r2.created_date < r3.created_date) :
    (showRecipes st).calls = [.recordList "created_date" "DESC"] ∧
    (showRecipes st).response = some ⟨200, .docList [r3, r2, r1]⟩ := by
  have n32 : ¬ r3.created_date ≤ r2.created_date := by omega
  have n31 : ¬ r3.created_date ≤ r1.created_date := by omega
  have n21 : ¬ r2.created_date ≤ r1.created_date := by omega
  have hL : st.recordStore.listDocuments COLLECTION_ID "created_date" "DESC"
      = .ok [r3, r2, r1] := by
    simp [RecordStore.listDocuments, hok, hdocs, sortByCreatedDesc,
      insertDesc, n32, n31, n21]
  simp [showRecipes, hL]

/-- C5 witness: the theorem evaluated on the concrete backend holding
recA, recB, recC created at times 1 < 2 < 3. -/
theorem list_sorted_created_date_desc_witness :
    (showRecipes threeRecState).calls = [.recordList "created_date" "DESC"] ∧
    (showRecipes threeRecState).response = some ⟨200, .docList [recC, recB, recA]⟩ :=
  list_sorted_created_date_desc threeRecState recA recB recC rfl rfl
    (by decide) (by decide)

/-- C6: on an update that the Record Store completes successfully (the
store really does end up holding the updated record), the service answers
HTTP 201 whose body is the still-pending promise of the adapter call, not
the updated record — the handler never awaits `updateDocument`. -/
theorem update_success_body_is_promise :
    (updateRecipe "doc0" ⟨some "Stew", none, none⟩ oneRecState).finalState.recordStore.docs
      = [⟨"doc0", "Stew", "Water,Salt", "Boil", 5, none⟩] ∧
    (updateRecipe "doc0" ⟨some "Stew", none, none⟩ oneRecState).response
      = some ⟨201, .pendingPromise⟩ ∧
    Body.pendingPromise ≠ Body.record ⟨"doc0", "Stew", "Water,Salt", "Boil", 5, none⟩ :=
  ⟨rfl, rfl, fun hcontra => Body.noConfusion hcontra⟩

/-- C7: every create request whose parsed details lack `name` is answered
with HTTP 400 (either the TypeError of a missing upload, a File Store
error, or the backend rejecting the invalid field mapping), and the
Record Store documents are exactly what they were before — no partially
created record exists afterwards. -/
theorem missing_name_create_400_no_record (req : CreateRequest)
    (st : SystemState) (hname : req.details.name = none) :
    (∃ m, (createRecipe req st).response = some ⟨400, .errorMsg m⟩) ∧
    (createRecipe req st).finalState.recordStore.docs = st.recordStore.docs := by
  rcases hf : req.file with _ | f
  · exact ⟨⟨typeErrorNoFile, by simp [createRecipe, hf]⟩, by simp [createRecipe, hf]⟩
  · rcases hE : st.fileStore.createFile (uploadsDir ++ f.filename) ["*"] ["*"]
      with m | ⟨fs2, img⟩
    · exact ⟨⟨m, by simp [createRecipe, hf, hE]⟩, by simp [createRecipe, hf, hE]⟩
    · obtain ⟨m2, hC⟩ := createDocument_noName st.recordStore COLLECTION_ID
        { name := req.details.name, recipe := req.details.recipe,
          ingredients := req.details.ingredients, created_date := req.now,
          image := some img } hname
      exact ⟨⟨m2, by simp [createRecipe, hf, hE, hC]⟩,
             by simp [createRecipe, hf, hE, hC]⟩

/-- C7 witness: the theorem evaluated on a concrete request with an
uploaded image whose details lack `name`, against the fresh backend. -/
theorem missing_name_create_400_no_record_witness :
    (∃ m, (createRecipe ⟨some ⟨"a.png"⟩, ⟨none, some "Water,Salt", some "Boil"⟩, 5⟩
        emptyState).response = some ⟨400, .errorMsg m⟩) ∧
    (createRecipe ⟨some ⟨"a.png"⟩, ⟨none, some "Water,Salt", some "Boil"⟩, 5⟩
        emptyState).finalState.recordStore.docs = emptyState.recordStore.docs :=
  missing_name_create_400_no_record
    ⟨some ⟨"a.png"⟩, ⟨none, some "Water,Salt", some "Boil"⟩, 5⟩ emptyState rfl

/-- C8: whenever the Record Store completes the delete successfully, the
service answers HTTP 200 and the body it serialises is the handler
function reference `deleteRecipe` itself (the source returns the function,
not the stored deletion result), while the store reflects the deletion. -/
theorem delete_success_echoes_handler (id : String) (st : SystemState)
    (rs2 : RecordStore)
    (hok : st.recordStore.deleteDocument COLLECTION_ID id = .ok (rs2, ())) :
    (deleteRecipe id st).response = some ⟨200, .funcRef "deleteRecipe"⟩ ∧
    (deleteRecipe id st).finalState.recordStore = rs2 := by
  simp [deleteRecipe, hok]

/-- C8 witness: deleting `doc0` from the one-record backend succeeds,
answers 200, and echoes the handler reference. -/
theorem delete_success_echoes_handler_witness :
    (deleteRecipe "doc0" oneRecState).response
      = some ⟨200, .funcRef "deleteRecipe"⟩ ∧
    (deleteRecipe "doc0" oneRecState).finalState.recordStore
      = { docs := [], nextId := 1, failWith := none } :=
  delete_success_echoes_handler "doc0" oneRecState
    { docs := [], nextId := 1, failWith := none } rfl

/-- C9: updating an existing record with a field mapping carrying only
`name` rewrites exactly the records with that id (every other record is
untouched by the map), and the record found afterwards under the updated
id is the old record with only its `name` replaced — `ingredients` and
`recipe` are preserved. -/
theorem update_only_name_frame (st : SystemState) (id n : String)
    (r : StoredRecipe) (hok : st.recordStore.failWith = none)
    (hfound : st.recordStore.docs.find? (fun d => d.id == id) = some r) :
    (updateRecipe id ⟨some n, none, none⟩ st).finalState.recordStore.docs
      = st.recordStore.docs.map
          (fun d => if d.id == id then { d with name := n } else d) ∧
    (updateRecipe id ⟨some n, none, none⟩ st).finalState.recordStore.docs.find?
      (fun d => d.id == id) = some { r with name := n } := by
  have hU : st.recordStore.updateDocument COLLECTION_ID id ⟨some n, none, none⟩
      = .ok ({ st.recordStore with
                docs := st.recordStore.docs.map
                  (fun d => if d.id == id then mergeFields d ⟨some n, none, none⟩
                            else d) },
             mergeFields r ⟨some n, none, none⟩) := by
    simp [RecordStore.updateDocument, hok, hfound]
  constructor
  · simp [updateRecipe, hU, mergeFields_only_name]
  · simp only [updateRecipe, hU]
    have hfind := find?_map_update st.recordStore.docs id ⟨some n, none, none⟩
      r hfound
    simpa [mergeFields_only_name] using hfind

/-- C9 witness: updating only the name of `doc0` in the one-record backend
leaves its ingredients and recipe unchanged. -/
theorem update_only_name_frame_witness :
    (updateRecipe "doc0" ⟨some "Stew2", none, none⟩ oneRecState).finalState.recordStore.docs
      = oneRecState.recordStore.docs.map
          (fun d => if d.id == "doc0" then { d with name := "Stew2" } else d) ∧
    (updateRecipe "doc0" ⟨some "Stew2", none, none⟩ oneRecState).finalState.recordStore.docs.find?
      (fun d => d.id == "doc0")
      = some { (⟨"doc0", "Soup", "Water,Salt", "Boil", 5, none⟩ : StoredRecipe) with
                name := "Stew2" } :=
  update_only_name_frame oneRecState "doc0" "Stew2"
    ⟨"doc0", "Soup", "Water,Salt", "Boil", 5, none⟩ rfl rfl

/-- C10: deleting a recipe leaves the File Store completely untouched and
issues exactly one Record Store delete call; moreover no operation of the
system — create, list, update or delete — ever issues a File Store delete
call, so a stored image referenced by a deleted record is never cleaned
up. -/
theorem no_fileStore_delete_ever :
    (∀ id st, (deleteRecipe id st).finalState.fileStore = st.fileStore ∧
      (deleteRecipe id st).calls = [.recordDelete id]) ∧
    (∀ req st, (createRecipe req st).calls.filter isFileStoreDelete = []) ∧
    (∀ st, (showRecipes st).calls.filter isFileStoreDelete = []) ∧
    (∀ id b st, (updateRecipe id b st).calls.filter isFileStoreDelete = []) ∧
    (∀ id st, (deleteRecipe id st).calls.filter isFileStoreDelete = []) := by
  refine ⟨?_, ?_, ?_, ?_, ?_⟩
  · intro id st
    rcases h : st.recordStore.deleteDocument COLLECTION_ID id with m | ⟨rs2, u⟩ <;>
      simp [deleteRecipe, h]
  · intro req st
    rcases hf : req.file with _ | f
    · simp [createRecipe, hf, isFileStoreDelete]
    · rcases hE : st.fileStore.createFile (uploadsDir ++ f.filename) ["*"] ["*"]
        with m | ⟨fs2, img⟩
      · simp [createRecipe, hf, hE, isFileStoreDelete]
      · rcases hC : st.recordStore.createDocument COLLECTION_ID
            { name := req.details.name, recipe := req.details.recipe,
              ingredients := req.details.ingredients, created_date := req.now,
              image := some img } with m2 | ⟨rs2, rec⟩ <;>
          simp [createRecipe, hf, hE, hC, isFileStoreDelete]
  · intro st
    rcases h : st.recordStore.listDocuments COLLECTION_ID "created_date" "DESC"
      with m | ds <;> simp [showRecipes, h, isFileStoreDelete]
  · intro id b st
    simp [updateRecipe, isFileStoreDelete]
  · intro id st
    rcases h : st.recordStore.deleteDocument COLLECTION_ID id with m | ⟨rs2, u⟩ <;>
      simp [deleteRecipe, h, isFileStoreDelete]

end QuickRecipes
